import Mathlib

/-!
Verification development for the SC2262 door-sensor decoder
(`src/arduino/door_codes.ino`).  The sketch is shallowly embedded:
durations are `Nat` (microseconds), the pulse stream is a function
`Nat → Nat` giving the result of the k-th `pulseIn` call, and the
digital line is a function `Nat → Bool` giving whether the k-th
`digitalRead` sample is LOW.  Machine integers whose values provably
stay below their type bounds (durations are `unsigned long`; loop
indices, `num_success` and the tallies never exceed `resend_count`) are
modelled as `Nat`; the exception is `findNextSpacer`, whose `time` and
`total_time` accumulators are 16-bit `int`s on the AVR targets this
sketch is written for and do overflow, so they are modelled as `Int`
with explicit two's-complement wrapping (`wrap16`).
-/

namespace DoorCodes

/-- Configuration constant `short_min` (door_codes.ino line 47). -/
def short_min : Nat := 350

/-- Configuration constant `long_min` (door_codes.ino line 51). -/
def long_min : Nat := 1200

/-- Configuration constant `resend_count` (door_codes.ino line 55). -/
def resend_count : Nat := 17

/-- Categorical pulse lengths, as named by the spec's data model. -/
inductive PulseLength where
  | SHORT : PulseLength
  | LONG  : PulseLength
  | NONE  : PulseLength
  deriving DecidableEq, Repr

/-- Tri-state symbols, as named by the spec's data model. -/
inductive Symbol where
  | ZERO    : Symbol
  | ONE     : Symbol
  | F       : Symbol
  | INVALID : Symbol
  deriving DecidableEq, Repr

/-- The pulse classification implicit in `readNextCode`'s comparisons:
a duration is rejected («NONE») when `first == 0 || first < short_min`
(lines 95 and 113), and counts as long exactly when it is strictly
greater than `long_min` (lines 130, 132, 134). -/
def classify (d : Nat) : PulseLength :=
  if d = 0 ∨ d < short_min then PulseLength.NONE
  else if d > long_min then PulseLength.LONG
  else PulseLength.SHORT

/-- The symbol decoder implicit in one iteration of `readNextCode`
(lines 95-145): the two `pulseIn` results are checked against
`short_min`, then the branch ladder on `> long_min` / `< long_min`
selects the tri-state, with the long-then-short combination invalid. -/
def decode (first second : Nat) : Symbol :=
  if first = 0 ∨ first < short_min then Symbol.INVALID
  else if second = 0 ∨ second < short_min then Symbol.INVALID
  else if first > long_min ∧ second > long_min then Symbol.ONE
  else if second > long_min then Symbol.F
  else if first < long_min ∧ second < long_min then Symbol.ZERO
  else Symbol.INVALID

/-- The classifier as the spec's words describe it (`LONG` at or above
`long_min`), kept for comparison with the code-derived `classify`. -/
def classifySpec (d : Nat) : PulseLength :=
  if d = 0 ∨ d < short_min then PulseLength.NONE
  else if d ≥ long_min then PulseLength.LONG
  else PulseLength.SHORT

/-- Claim C3, counterexample: a duration exactly equal to `long_min` does
not classify as LONG — the sketch's long test is the strict
`first > long_min` — and behaviourally the decoder treats
`first = long_min` as short: paired with a genuinely long second pulse
it yields F (short-then-long), not ONE (long-then-long). -/
theorem classify_long_min_counterexample :
    long_min ≥ long_min ∧ classify long_min ≠ PulseLength.LONG ∧
    decode long_min 1500 = Symbol.F ∧ decode 1500 1500 = Symbol.ONE := by
  decide

/-- Claim C3 (amended): classification returns NONE iff `d = 0` or
`d < short_min`; it returns LONG iff `d > long_min` (strictly greater,
not at-or-above); otherwise it returns SHORT. In particular a duration
exactly equal to `long_min` classifies as SHORT, not LONG. -/
theorem classify_characterization :
    (∀ d, (classify d = PulseLength.NONE ↔ (d = 0 ∨ d < short_min))) ∧
    (∀ d, (classify d = PulseLength.LONG ↔ d > long_min)) ∧
    (∀ d, (classify d = PulseLength.SHORT ↔ (short_min ≤ d ∧ d ≤ long_min))) ∧
    classify long_min = PulseLength.SHORT := by
  refine ⟨?_, ?_, ?_, by decide⟩ <;>
    intro d <;> unfold classify short_min long_min <;>
    split_ifs <;> simp_all <;> omega

/-- Claim C4, counterexample: at `first = second = long_min` neither
pulse classifies as NONE and neither classifies as LONG (both SHORT),
so the claim demands ZERO — and under the spec's at-or-above reading of
LONG both would classify LONG, so the claim would demand ONE — yet the
decoder returns INVALID. -/
theorem decode_boundary_counterexample :
    classify 1200 ≠ PulseLength.NONE ∧ classify 1200 = PulseLength.SHORT ∧
    classifySpec 1200 = PulseLength.LONG ∧
    decode 1200 1200 = Symbol.INVALID := by
  decide

/-- Claim C4 (amended): with either pulse classifying NONE the result is
INVALID; both LONG gives ONE; only `second` LONG gives F; `first` LONG
with `second` SHORT gives INVALID; and both SHORT gives ZERO except
when either duration equals `long_min` exactly — the boundary value
fails both the strict `> long_min` long tests and the strict
`< long_min` both-short test, so such a pair decodes to INVALID. -/
theorem decode_by_classification (f s : Nat) :
    ((classify f = PulseLength.NONE ∨ classify s = PulseLength.NONE) →
      decode f s = Symbol.INVALID) ∧
    (classify f = PulseLength.LONG → classify s = PulseLength.LONG →
      decode f s = Symbol.ONE) ∧
    (classify f = PulseLength.SHORT → classify s = PulseLength.LONG →
      decode f s = Symbol.F) ∧
    (classify f = PulseLength.SHORT → classify s = PulseLength.SHORT →
      f ≠ long_min → s ≠ long_min → decode f s = Symbol.ZERO) ∧
    (classify f = PulseLength.SHORT → classify s = PulseLength.SHORT →
      (f = long_min ∨ s = long_min) → decode f s = Symbol.INVALID) ∧
    (classify f = PulseLength.LONG → classify s = PulseLength.SHORT →
      decode f s = Symbol.INVALID) := by
  unfold classify decode short_min long_min
  split_ifs <;> simp_all <;> omega

/-- Witness for the amended C4 at concrete durations 400 and 1500. -/
theorem decode_by_classification_witness :
    classify 400 = PulseLength.SHORT ∧ classify 1500 = PulseLength.LONG ∧
    decode 400 1500 = Symbol.F :=
  ⟨by decide, by decide,
    (decode_by_classification 400 1500).2.2.1 (by decide) (by decide)⟩

/-- Claim C5, counterexample: the spec's example `decode(200, 1500) = F`
fails — 200 is below `short_min = 350`, so the first pulse is rejected
and the decoder returns INVALID, not F. -/
theorem decode_200_counterexample :
    (200 < short_min) ∧ decode 200 1500 = Symbol.INVALID ∧
    Symbol.INVALID ≠ Symbol.F := by
  decide

/-- Claim C5 (amended): symbol decoding is a pure function of the
duration pair with `decode 1500 1500 = ONE`, `decode 400 1500 = F`,
`decode 400 400 = ZERO`, `decode 1500 400 = INVALID` and
`decode 0 x = INVALID` for every `x`; the spec's 200 µs examples fall
below `short_min = 350` and therefore give INVALID. -/
theorem decode_examples :
    decode 1500 1500 = Symbol.ONE ∧ decode 400 1500 = Symbol.F ∧
    decode 400 400 = Symbol.ZERO ∧ decode 1500 400 = Symbol.INVALID ∧
    (∀ x, decode 0 x = Symbol.INVALID) ∧
    decode 200 1500 = Symbol.INVALID ∧ decode 200 200 = Symbol.INVALID := by
  refine ⟨by decide, by decide, by decide, by decide, ?_, by decide, by decide⟩
  intro x
  simp [decode]

/-- The per-position majority selection (door_codes.ino lines 212-218):
`'0'` if its count strictly exceeds both others, else `'1'` if its
count strictly exceeds F's, else `'F'`. -/
def vote (c0 c1 c2 : Nat) : Char :=
  if c0 > c1 ∧ c0 > c2 then '0'
  else if c1 > c2 then '1'
  else 'F'

/-- The per-position tally (door_codes.ino lines 201-205): the number of
recorded attempts that are valid and hold character `c` at position
`j`. -/
def tallyAt (attempts : List (Bool × List Char)) (j : Nat) (c : Char) : Nat :=
  attempts.countP (fun a => a.1 && (a.2.getD j ' ' == c))

/-- Claim C1, counterexample: with tallies (1, 2, 2) — e.g. position 0
of the five valid attempts `[ONE, ONE, F, F, ZERO]` — the voter emits
F, not ONE: the ONE-vs-F comparison is the strict `c1 > c2`, and a 2-2
tie falls through to the F default. -/
theorem vote_tie_counterexample :
    tallyAt [(true, ['1']), (true, ['1']), (true, ['F']),
             (true, ['F']), (true, ['0'])] 0 '0' = 1 ∧
    tallyAt [(true, ['1']), (true, ['1']), (true, ['F']),
             (true, ['F']), (true, ['0'])] 0 '1' = 2 ∧
    tallyAt [(true, ['1']), (true, ['1']), (true, ['F']),
             (true, ['F']), (true, ['0'])] 0 'F' = 2 ∧
    vote 1 2 2 = 'F' ∧ ('F' : Char) ≠ '1' := by
  decide

/-- Claim C1 (amended): the voter emits ZERO iff `c0 > c1` and
`c0 > c2`; otherwise it emits ONE iff `c1 > c2`; otherwise F. Counts
(3,1,1) yield ZERO, counts (1,1,2) yield F, and counts (1,2,2) yield F
(the 2-2 tie between ONE and F falls to the F default, so the spec's
`[ONE, ONE, F, F, ZERO]` example selects F, not ONE). -/
theorem vote_characterization (c0 c1 c2 : Nat) :
    (vote c0 c1 c2 = '0' ↔ (c0 > c1 ∧ c0 > c2)) ∧
    (vote c0 c1 c2 = '1' ↔ (¬(c0 > c1 ∧ c0 > c2) ∧ c1 > c2)) ∧
    (vote c0 c1 c2 = 'F' ↔ (¬(c0 > c1 ∧ c0 > c2) ∧ ¬(c1 > c2))) ∧
    vote 3 1 1 = '0' ∧ vote 1 2 2 = 'F' ∧ vote 1 1 2 = 'F' := by
  refine ⟨?_, ?_, ?_, by decide, by decide, by decide⟩ <;>
    unfold vote <;> split_ifs <;> simp_all

/-- Two's-complement wrap onto a 16-bit signed `int`, as on the AVR
targets this sketch is written for. -/
def wrap16 (x : Int) : Int := (x + 32768) % 65536 - 32768

/-- State of `findNextSpacer`'s polling loop (door_codes.ino lines
67-78): the 16-bit `int` variables `time` (accumulated consecutive-LOW
time) and `total_time` (total accumulated time). -/
structure SpacerState where
  time : Int
  total_time : Int
  deriving DecidableEq, Repr

/-- One iteration of the polling loop body (door_codes.ino lines
71-77): `low k` says whether the k-th `digitalRead` sample is LOW; the
two `+= measure_delay` updates are 16-bit `int` additions and wrap. -/
def spacerStep (low : Nat → Bool) (k : Nat) (s : SpacerState) : SpacerState :=
  { time := if low k then wrap16 (s.time + 10) else 0,
    total_time := wrap16 (s.total_time + 10) }

/-- The loop state after `n` iterations, from `time = 0`,
`total_time = 0` (door_codes.ino lines 67-68). -/
def spacerIter (low : Nat → Bool) : Nat → SpacerState
  | 0 => { time := 0, total_time := 0 }
  | n + 1 => spacerStep low n (spacerIter low n)

/-- The `while` guard (door_codes.ino line 70): the loop performs
another iteration exactly while this holds. In the source the literal
`50000` does not fit in a 16-bit `int` and has type `long`, so the
comparison `total_time < 50000` promotes `total_time` to `long` —
its (wrapped) 16-bit value is compared against 50000. -/
def spacerGuard (s : SpacerState) : Prop :=
  s.time < 3000 ∧ s.total_time < 50000

theorem wrap16_bounds (x : Int) : -32768 ≤ wrap16 x ∧ wrap16 x ≤ 32767 := by
  unfold wrap16
  omega

theorem spacerIter_total_time_bounds (low : Nat → Bool) (n : Nat) :
    -32768 ≤ (spacerIter low n).total_time ∧
      (spacerIter low n).total_time ≤ 32767 := by
  cases n with
  | zero =>
    unfold spacerIter
    norm_num
  | succ m =>
    show -32768 ≤ (spacerStep low m (spacerIter low m)).total_time ∧
      (spacerStep low m (spacerIter low m)).total_time ≤ 32767
    unfold spacerStep
    dsimp only
    exact wrap16_bounds _

/-- Claim C8 is a code bug: the 50 ms timeout half of the loop guard is
dead code, so the resynchronizer is NOT bounded by `resync_timeout`.
`total_time` is a 16-bit `int`: every value it can ever hold is below
the `long` literal 50000, so `total_time < 50000` still holds after
every iteration, on every sample stream — `total_time` wraps at 32767
instead of reaching 50000. On a continuously-HIGH (never-idle) line
`time` is reset to 0 at every iteration as well, so the whole guard
holds after every iteration and the loop never exits, contradicting
both the claim and the sketch's own comment "Waits up to 50ms"
(door_codes.ino line 62). -/
theorem findNextSpacer_timeout_dead :
    (∀ low n, (spacerIter low n).total_time < 50000) ∧
    (∀ low, (∀ k, low k = false) → ∀ n, spacerGuard (spacerIter low n)) := by
  have htot : ∀ (low : Nat → Bool) (n : Nat),
      (spacerIter low n).total_time < 50000 := by
    intro low n
    have := spacerIter_total_time_bounds low n
    omega
  refine ⟨htot, ?_⟩
  intro low hlow n
  unfold spacerGuard
  refine ⟨?_, htot low n⟩
  cases n with
  | zero =>
    unfold spacerIter
    norm_num
  | succ m =>
    show (spacerStep low m (spacerIter low m)).time < 3000
    unfold spacerStep
    dsimp only
    rw [hlow m]
    norm_num

/-- Witness for C8: after 5001 iterations — more than the 5000 the claim
allows for — on a continuously-HIGH line the loop guard still holds, by
the theorem applied to that line. -/
theorem findNextSpacer_timeout_dead_witness :
    spacerGuard (spacerIter (fun _ => false) 5001) :=
  findNextSpacer_timeout_dead.2 (fun _ => false) (fun _ => rfl) 5001

theorem getD_set_self {α : Type} (l : List α) (i : Nat) (a d : α)
    (h : i < l.length) : (l.set i a).getD i d = a := by
  rw [List.getD_eq_getElem?_getD, List.getElem?_set_self h]
  rfl

theorem getD_set_ne {α : Type} (l : List α) (i j : Nat) (a d : α)
    (h : i ≠ j) : (l.set i a).getD j d = l.getD j d := by
  rw [List.getD_eq_getElem?_getD, List.getElem?_set_ne h,
    ← List.getD_eq_getElem?_getD]

/-- Outcome of one `readNextCode` call: the returned value (`res`), the
final contents of the 13-byte buffer, how many times `findNextSpacer`
was invoked, and the list of buffer indices written to. -/
structure ReadResult where
  res : Nat
  buf : List Char
  resyncs : Nat
  writes : List Nat
  deriving DecidableEq, Repr

/-- The body of `readNextCode` (door_codes.ino lines 84-155). `pulses k`
is the duration returned by the k-th `pulseIn` call, so iteration `i`
reads `pulses (2*i)` and `pulses (2*i+1)`; `rem` is the number of loop
iterations remaining (`rem = 12 - i`).  A too-short or missing pulse
fails, with `findNextSpacer` invoked only when `i >= 1` (lines 99 and
116); the long-then-short combination writes the `'X'` marker and a
terminator and always invokes `findNextSpacer` (lines 141-143); after
all 12 symbols the terminator is written at index 12 and 1 is returned
(lines 153-154). -/
def readNextCodeAux (pulses : Nat → Nat) : Nat → Nat → List Char → ReadResult
  | 0, _, buf =>
    { res := 1, buf := buf.set 12 (Char.ofNat 0), resyncs := 0, writes := [12] }
  | rem + 1, i, buf =>
    let first := pulses (2 * i)
    if first = 0 ∨ first < short_min then
      { res := 0, buf := buf, resyncs := if i ≥ 1 then 1 else 0, writes := [] }
    else
      let second := pulses (2 * i + 1)
      if second = 0 ∨ second < short_min then
        { res := 0, buf := buf, resyncs := if i ≥ 1 then 1 else 0, writes := [] }
      else if first > long_min ∧ second > long_min then
        let r := readNextCodeAux pulses rem (i + 1) (buf.set i '1')
        { r with writes := i :: r.writes }
      else if second > long_min then
        let r := readNextCodeAux pulses rem (i + 1) (buf.set i 'F')
        { r with writes := i :: r.writes }
      else if first < long_min ∧ second < long_min then
        let r := readNextCodeAux pulses rem (i + 1) (buf.set i '0')
        { r with writes := i :: r.writes }
      else
        { res := 0, buf := (buf.set i 'X').set (i + 1) (Char.ofNat 0),
          resyncs := 1, writes := [i, i + 1] }

/-- `readNextCode` on the pulse stream `pulses` with initial buffer
contents `buf` (a `char[13]`). -/
def readNextCode (pulses : Nat → Nat) (buf : List Char) : ReadResult :=
  readNextCodeAux pulses 12 0 buf

theorem readNextCodeAux_resyncs_le (pulses : Nat → Nat) :
    ∀ rem i buf, (readNextCodeAux pulses rem i buf).resyncs ≤ 1 := by
  intro rem
  induction rem with
  | zero => intro i buf; simp [readNextCodeAux]
  | succ n ih =>
    intro i buf
    simp only [readNextCodeAux]
    split_ifs <;> simp_all

theorem readNextCodeAux_fail_resync (pulses : Nat → Nat) :
    ∀ rem i buf, 1 ≤ i → (readNextCodeAux pulses rem i buf).res = 0 →
      (readNextCodeAux pulses rem i buf).resyncs = 1 := by
  intro rem
  induction rem with
  | zero => intro i buf hi hres; simp [readNextCodeAux] at hres
  | succ n ih =>
    intro i buf hi hres
    simp only [readNextCodeAux] at hres ⊢
    split_ifs at hres ⊢ <;> simp_all

/-- Claim C2, counterexample: a malformed long-then-short tri-state at
position 0 (first pulse 1500, second 400) makes `readNextCode` return
failure after invoking `findNextSpacer` once — the malformed-tri-state
branch resynchronizes unconditionally, with no `i >= 1` guard. -/
theorem readNextCode_pos0_malformed_counterexample :
    (readNextCode (fun k => if k = 0 then 1500 else 400)
      (List.replicate 13 ' ')).res = 0 ∧
    (readNextCode (fun k => if k = 0 then 1500 else 400)
      (List.replicate 13 ' ')).resyncs = 1 := by
  decide

theorem readNextCodeAux_resync_iff (pulses : Nat → Nat) (n : Nat)
    (buf : List Char) (hfail : (readNextCodeAux pulses (n + 1) 0 buf).res = 0) :
    ((readNextCodeAux pulses (n + 1) 0 buf).resyncs = 0 ↔
      ((pulses 0 = 0 ∨ pulses 0 < short_min) ∨
        (pulses 1 = 0 ∨ pulses 1 < short_min))) := by
  simp only [readNextCodeAux, Nat.mul_zero, Nat.zero_add] at hfail ⊢
  by_cases h0 : pulses 0 = 0 ∨ pulses 0 < short_min
  · rw [if_pos h0]
    dsimp only
    norm_num
    tauto
  · rw [if_neg h0] at hfail ⊢
    by_cases h1 : pulses 1 = 0 ∨ pulses 1 < short_min
    · rw [if_pos h1]
      dsimp only
      norm_num
      tauto
    · rw [if_neg h1] at hfail ⊢
      by_cases h2 : pulses 0 > long_min ∧ pulses 1 > long_min
      · rw [if_pos h2] at hfail ⊢
        dsimp only at hfail ⊢
        have h9 := readNextCodeAux_fail_resync pulses n 1 (buf.set 0 '1')
          (by omega) hfail
        omega
      · rw [if_neg h2] at hfail ⊢
        by_cases h3 : pulses 1 > long_min
        · rw [if_pos h3] at hfail ⊢
          dsimp only at hfail ⊢
          have h9 := readNextCodeAux_fail_resync pulses n 1 (buf.set 0 'F')
            (by omega) hfail
          omega
        · rw [if_neg h3] at hfail ⊢
          by_cases h4 : pulses 0 < long_min ∧ pulses 1 < long_min
          · rw [if_pos h4] at hfail ⊢
            dsimp only at hfail ⊢
            have h9 := readNextCodeAux_fail_resync pulses n 1 (buf.set 0 '0')
              (by omega) hfail
            omega
          · rw [if_neg h4] at hfail ⊢
            dsimp only
            omega

/-- Claim C2 (amended): on every failing read attempt, `findNextSpacer`
is invoked at most once, and it is not invoked exactly when the failure
is a missing/too-short pulse at position 0 (either of the first two
measured durations rejected); a missing/too-short pulse at a position
`i ≥ 1`, and a malformed long-then-short tri-state at any position —
position 0 included — invoke it exactly once before returning. -/
theorem readNextCode_resync_policy (pulses : Nat → Nat) (buf : List Char)
    (hfail : (readNextCode pulses buf).res = 0) :
    (readNextCode pulses buf).resyncs ≤ 1 ∧
    ((readNextCode pulses buf).resyncs = 0 ↔
      ((pulses 0 = 0 ∨ pulses 0 < short_min) ∨
        (pulses 1 = 0 ∨ pulses 1 < short_min))) := by
  refine ⟨readNextCodeAux_resyncs_le pulses 12 0 buf, ?_⟩
  have h12 : (12 : Nat) = 11 + 1 := rfl
  unfold readNextCode at hfail ⊢
  rw [h12] at hfail ⊢
  exact readNextCodeAux_resync_iff pulses 11 buf hfail

/-- Witness for the amended C2: with no pulses at all (every `pulseIn`
returns 0) the read fails at position 0 and no resynchronization
happens. -/
theorem readNextCode_resync_policy_witness :
    (readNextCode (fun _ => 0) (List.replicate 13 ' ')).res = 0 ∧
    (readNextCode (fun _ => 0) (List.replicate 13 ' ')).resyncs = 0 :=
  ⟨by decide,
    ((readNextCode_resync_policy (fun _ => 0) (List.replicate 13 ' ')
      (by decide)).2).mpr (by decide)⟩

theorem readNextCodeAux_success_invariant (pulses : Nat → Nat) :
    ∀ rem i buf, i + rem = 12 → buf.length = 13 →
      (∀ j, j < i →
        (buf.getD j ' ' = '0' ∨ buf.getD j ' ' = '1' ∨ buf.getD j ' ' = 'F')) →
      (readNextCodeAux pulses rem i buf).res = 1 →
      (readNextCodeAux pulses rem i buf).buf.length = 13 ∧
      (∀ j, j < 12 →
        ((readNextCodeAux pulses rem i buf).buf.getD j ' ' = '0' ∨
         (readNextCodeAux pulses rem i buf).buf.getD j ' ' = '1' ∨
         (readNextCodeAux pulses rem i buf).buf.getD j ' ' = 'F')) ∧
      (readNextCodeAux pulses rem i buf).buf.getD 12 ' ' = Char.ofNat 0 := by
  intro rem
  induction rem with
  | zero =>
    intro i buf hi hlen hinv _
    simp only [readNextCodeAux]
    refine ⟨by simp [hlen], ?_, ?_⟩
    · intro j hj
      rw [getD_set_ne buf 12 j (Char.ofNat 0) ' ' (by omega)]
      exact hinv j (by omega)
    · exact getD_set_self buf 12 (Char.ofNat 0) ' ' (by omega)
  | succ n ih =>
    intro i buf hi hlen hinv hres
    have hstep : ∀ c : Char, (c = '0' ∨ c = '1' ∨ c = 'F') →
        (readNextCodeAux pulses n (i + 1) (buf.set i c)).res = 1 →
        (readNextCodeAux pulses n (i + 1) (buf.set i c)).buf.length = 13 ∧
        (∀ j, j < 12 →
          ((readNextCodeAux pulses n (i + 1) (buf.set i c)).buf.getD j ' ' = '0' ∨
           (readNextCodeAux pulses n (i + 1) (buf.set i c)).buf.getD j ' ' = '1' ∨
           (readNextCodeAux pulses n (i + 1) (buf.set i c)).buf.getD j ' ' = 'F')) ∧
        (readNextCodeAux pulses n (i + 1) (buf.set i c)).buf.getD 12 ' '
          = Char.ofNat 0 := by
      intro c hc hr
      refine ih (i + 1) (buf.set i c) (by omega) (by simp [hlen]) ?_ hr
      intro j hj
      rcases Nat.lt_or_ge j i with hji | hji
      · rw [getD_set_ne buf i j c ' ' (by omega)]
        exact hinv j hji
      · have hji2 : j = i := by omega
        subst hji2
        rw [getD_set_self buf j c ' ' (by omega)]
        exact hc
    simp only [readNextCodeAux] at hres ⊢
    split_ifs at hres ⊢ <;> dsimp only at hres ⊢ <;>
      first
        | simp at hres
        | exact hstep '1' (by simp) hres
        | exact hstep 'F' (by simp) hres
        | exact hstep '0' (by simp) hres

/-- Claim C9: whenever `readNextCode` returns 1, the completed buffer
holds 12 symbols each in `{'0', '1', 'F'}` at indices 0-11 and the
terminator `'\0'` at index 12; in particular the `'X'` invalid marker
appears nowhere in the completed code. -/
theorem readNextCode_success_invariant (pulses : Nat → Nat) (buf : List Char)
    (hlen : buf.length = 13) (hres : (readNextCode pulses buf).res = 1) :
    (∀ j, j < 12 →
      ((readNextCode pulses buf).buf.getD j ' ' = '0' ∨
       (readNextCode pulses buf).buf.getD j ' ' = '1' ∨
       (readNextCode pulses buf).buf.getD j ' ' = 'F')) ∧
    (readNextCode pulses buf).buf.getD 12 ' ' = Char.ofNat 0 ∧
    (∀ j, j ≤ 12 → (readNextCode pulses buf).buf.getD j ' ' ≠ 'X') := by
  unfold readNextCode at hres ⊢
  have h := readNextCodeAux_success_invariant pulses 12 0 buf (by omega) hlen
    (by intro j hj; omega) hres
  refine ⟨h.2.1, h.2.2, ?_⟩
  intro j hj
  rcases Nat.lt_or_ge j 12 with hj12 | hj12
  · rcases h.2.1 j hj12 with hc | hc | hc <;> rw [hc] <;> decide
  · have : j = 12 := by omega
    subst this
    rw [h.2.2]
    decide

/-- Witness for C9: an all-400 µs pulse stream decodes successfully to
twelve ZERO symbols. -/
theorem readNextCode_success_invariant_witness :
    (List.replicate 13 ' ').length = 13 ∧
    (readNextCode (fun _ => 400) (List.replicate 13 ' ')).res = 1 ∧
    (readNextCode (fun _ => 400) (List.replicate 13 ' ')).buf.getD 12 ' '
      = Char.ofNat 0 :=
  ⟨by decide, by decide,
    (readNextCode_success_invariant (fun _ => 400) (List.replicate 13 ' ')
      (by decide) (by decide)).2.1⟩

theorem readNextCodeAux_writes_le (pulses : Nat → Nat) :
    ∀ rem i buf, ∀ w ∈ (readNextCodeAux pulses rem i buf).writes,
      w ≤ i + rem ∨ w = 12 := by
  intro rem
  induction rem with
  | zero =>
    intro i buf w hw
    simp [readNextCodeAux] at hw
    omega
  | succ n ih =>
    intro i buf w hw
    simp only [readNextCodeAux] at hw
    split_ifs at hw <;> simp_all
    · rcases hw with hw | hw
      · omega
      · rcases ih (i + 1) (buf.set i '1') w hw with h | h
        · omega
        · omega
    · rcases hw with hw | hw
      · omega
      · rcases ih (i + 1) (buf.set i 'F') w hw with h | h
        · omega
        · omega
    · rcases hw with hw | hw
      · omega
      · rcases ih (i + 1) (buf.set i '0') w hw with h | h
        · omega
        · omega
    · omega

/-- Claim C10: every buffer store `readNextCode` performs uses an index
between 0 and 12 inclusive — positions 0-11 from the main loop, the
terminator at 12, and the malformed-branch stores at `i` and `i + 1`
with `i ≤ 11` — so no write goes outside the 13-byte buffer, on any
pulse stream and any initial buffer. -/
theorem readNextCode_writes_in_bounds (pulses : Nat → Nat) (buf : List Char) :
    ((readNextCode pulses buf).writes.all fun w => decide (w ≤ 12)) = true := by
  rw [List.all_eq_true]
  intro w hw
  have := readNextCodeAux_writes_le pulses 12 0 buf w hw
  simp only [decide_eq_true_eq]
  omega

/-- The attempt loop of `loop` (door_codes.ino lines 175-184). `read i`
gives the outcome of the i-th `readNextCode` call: its success flag and
the 13-byte buffer it left in `codes[i]`. `rem` is the number of loop
iterations remaining out of `resend_count`; `num_success` and `acc`
(the recorded attempts, i.e. the `valid[i]`/`codes[i]` pairs) accumulate
exactly as in the source, and the loop breaks when `num_success` is
still zero after an attempt. -/
def aggregateAux (read : Nat → Bool × List Char) :
    Nat → Nat → Nat → List (Bool × List Char) →
      Nat × List (Bool × List Char)
  | 0, _, num_success, acc => (num_success, acc)
  | rem + 1, i, num_success, acc =>
    let res : Nat := if (read i).1 then 1 else 0
    if num_success + res = 0 then (num_success + res, acc ++ [read i])
    else aggregateAux read rem (i + 1) (num_success + res) (acc ++ [read i])

/-- The whole attempt loop: up to `resend_count` invocations starting
from zero successes. Returns the final `num_success` and the recorded
attempts. -/
def aggregate (read : Nat → Bool × List Char) :
    Nat × List (Bool × List Char) :=
  aggregateAux read resend_count 0 0 []

/-- Final `num_success` of one cycle. -/
def numSuccess (read : Nat → Bool × List Char) : Nat := (aggregate read).1

/-- The recorded attempts of one cycle. -/
def attempts (read : Nat → Bool × List Char) : List (Bool × List Char) :=
  (aggregate read).2

/-- How many `readNextCode` invocations the cycle performed. -/
def numInvocations (read : Nat → Bool × List Char) : Nat :=
  (attempts read).length

/-- The majority pass of `loop` (door_codes.ino lines 211-220): one
`vote` per position over the per-position tallies of the valid
attempts, then the terminator at index 12. -/
def majorityResult (atts : List (Bool × List Char)) : List Char :=
  ((List.range 12).map fun j =>
    vote (tallyAt atts j '0') (tallyAt atts j '1') (tallyAt atts j 'F')) ++
    [Char.ofNat 0]

/-- The observable result of one `loop` cycle (door_codes.ino lines
187-227): the emitted code when `num_success > 3`, nothing otherwise. -/
def cycleOutput (read : Nat → Bool × List Char) : Option (List Char) :=
  if numSuccess read > 3 then some (majorityResult (attempts read)) else none

/-- The quiet period the cycle ends with: the `delay(1250)` runs exactly
when a result was emitted (door_codes.ino line 226). -/
def cycleQuietMs (read : Nat → Bool × List Char) : Nat :=
  if numSuccess read > 3 then 1250 else 0

theorem aggregateAux_succ (read : Nat → Bool × List Char)
    (rem i ns : Nat) (acc : List (Bool × List Char)) :
    aggregateAux read (rem + 1) i ns acc =
      if ns + (if (read i).1 then 1 else 0) = 0 then
        (ns + (if (read i).1 then 1 else 0), acc ++ [read i])
      else aggregateAux read rem (i + 1)
        (ns + (if (read i).1 then 1 else 0)) (acc ++ [read i]) := rfl

theorem aggregateAux_length_of_pos (read : Nat → Bool × List Char) :
    ∀ rem i ns acc, 1 ≤ ns →
      (aggregateAux read rem i ns acc).2.length = acc.length + rem := by
  intro rem
  induction rem with
  | zero => intro i ns acc _; simp [aggregateAux]
  | succ n ih =>
    intro i ns acc hns
    rw [aggregateAux_succ]
    by_cases hr : (read i).1
    · rw [if_pos hr, if_neg (by omega)]
      rw [ih (i + 1) (ns + 1) (acc ++ [read i]) (by omega)]
      simp
      omega
    · rw [if_neg hr, if_neg (by omega)]
      rw [ih (i + 1) (ns + 0) (acc ++ [read i]) (by omega)]
      simp
      omega

/-- Claim C7: within one cycle, if the first `readNextCode` invocation
fails the aggregator performs exactly one invocation and stops; if the
first invocation succeeds, the aggregator performs all `resend_count`
invocations, no matter how many of the later ones fail. (A success can
only ever happen at the first invocation or never: the loop breaks as
soon as the running success count is zero, which is checked right after
the first attempt.) -/
theorem aggregator_invocations (read : Nat → Bool × List Char) :
    ((read 0).1 = false → numInvocations read = 1) ∧
    ((read 0).1 = true → numInvocations read = resend_count) := by
  constructor
  · intro h
    unfold numInvocations attempts aggregate resend_count
    rw [show (17 : Nat) = 16 + 1 from rfl, aggregateAux_succ]
    simp [h]
  · intro h
    unfold numInvocations attempts aggregate resend_count
    rw [show (17 : Nat) = 16 + 1 from rfl, aggregateAux_succ]
    rw [h]
    rw [if_pos rfl, if_neg (by omega)]
    rw [aggregateAux_length_of_pos read 16 1 (0 + 1) ([] ++ [read 0]) (by omega)]
    simp

/-- Witness for C7: a stream whose first attempt fails stops after one
invocation, by the theorem applied at that stream. -/
theorem aggregator_invocations_witness :
    ((fun _ => (false, ([] : List Char))) 0).1 = false ∧
    numInvocations (fun _ => (false, ([] : List Char))) = 1 :=
  ⟨rfl, (aggregator_invocations (fun _ => (false, ([] : List Char)))).1 rfl⟩

/-- Claim C6: a cycle ending with exactly 3 successful attempts emits no
result and restarts with no quiet period; a cycle ending with more than
3 successes emits exactly one result and then holds for the 1250 ms
quiet period. The threshold test is the strict `num_success > 3`. -/
theorem cycle_threshold (read : Nat → Bool × List Char) :
    (numSuccess read = 3 → cycleOutput read = none ∧ cycleQuietMs read = 0) ∧
    (numSuccess read > 3 →
      (cycleOutput read).isSome = true ∧ cycleQuietMs read = 1250) := by
  unfold cycleOutput cycleQuietMs
  constructor
  · intro h
    rw [h]
    norm_num
  · intro h
    rw [if_pos h, if_pos h]
    simp

/-- Witness for C6: three successes then failures — exactly 3 valid
attempts — produce no output and no quiet period. -/
theorem cycle_threshold_witness :
    numSuccess (fun i => (decide (i < 3), ([] : List Char))) = 3 ∧
    cycleOutput (fun i => (decide (i < 3), ([] : List Char))) = none ∧
    cycleQuietMs (fun i => (decide (i < 3), ([] : List Char))) = 0 :=
  ⟨by decide,
    ((cycle_threshold (fun i => (decide (i < 3), ([] : List Char)))).1
      (by decide)).1,
    ((cycle_threshold (fun i => (decide (i < 3), ([] : List Char)))).1
      (by decide)).2⟩

end DoorCodes
